import Mathlib

/-
  Verification development for pachi's tactics/selfatari.c.

  The board query interface (board.h) is an external collaborator of the
  classifier; it is represented by the abstract `Board` structure below,
  whose fields are the query functions the classifier consumes.  The
  classifier itself (`is_bad_selfatari_slow` and its helper analyzers) is
  translated function-by-function from src/tactics/selfatari.c.

  Conventions:
  - `enum stone` becomes `Stone` (S_NONE, S_BLACK, S_WHITE, S_OFFBOARD).
  - `coord_t` and `group_t` become `Nat`; group id 0 means "no group"
    (as in the C code, where `group_at` of an empty or off-board point is 0
    and `!s->needs_more_lib` tests against 0).
  - The candidate coordinate `to` of the C code is written `t` here
    (`to` is a reserved token in this Lean environment).
  - The analyzers return `int` (-1 inconclusive / 0 "not bad" / 1 "bad");
    this becomes `Option Bool` (`none` / `some false` / `some true`).
  - `pass` (the no-suggestion return of selfatari_cousin) becomes `none`
    in an `Option Nat` result.
  - `fast_random(n)` (a uniformly random value in [0, n)) is modelled by
    an explicit parameter `r`, used as `r % n`.
-/

inductive Stone where
  | S_NONE
  | S_BLACK
  | S_WHITE
  | S_OFFBOARD
  deriving DecidableEq

/-- stone_other from board.h: swaps black and white. -/
def stone_other : Stone → Stone
  | Stone.S_BLACK => Stone.S_WHITE
  | Stone.S_WHITE => Stone.S_BLACK
  | s => s

/-- The external board query interface consumed by the classifier
(board.h's board_at, group_at, board_group_info(...).libs,
board_group_info(...).lib[i], foreach_neighbor, coord_is_adjecent,
board_is_one_point_eye, board_is_false_eyelike, group_is_onestone). -/
structure Board where
  board_at : Nat → Stone
  group_at : Nat → Nat
  libs : Nat → Nat
  lib : Nat → Nat → Nat
  neighbors : Nat → List Nat
  coord_is_adjecent : Nat → Nat → Bool
  board_is_one_point_eye : Nat → Stone → Bool
  board_is_false_eyelike : Nat → Stone → Bool
  group_is_onestone : Nat → Bool

/-- struct selfatari_state: the per-color group-id buckets (groupids,
with groupcts being the bucket length) and the three scalar fields. -/
structure SelfatariState where
  gids_none : List Nat
  gids_black : List Nat
  gids_white : List Nat
  gids_offboard : List Nat
  friend_has_no_libs : Bool
  needs_more_lib : Nat
  needs_more_lib_except : Nat
  deriving DecidableEq

/-- s->groupids[color] (s->groupcts[color] is its length). -/
def SelfatariState.groupids (s : SelfatariState) : Stone → List Nat
  | Stone.S_NONE => s.gids_none
  | Stone.S_BLACK => s.gids_black
  | Stone.S_WHITE => s.gids_white
  | Stone.S_OFFBOARD => s.gids_offboard

/-- s->groupids[color][s->groupcts[color]++] = g. -/
def SelfatariState.push (s : SelfatariState) (col : Stone) (g : Nat) : SelfatariState :=
  match col with
  | Stone.S_NONE => { s with gids_none := s.gids_none ++ [g] }
  | Stone.S_BLACK => { s with gids_black := s.gids_black ++ [g] }
  | Stone.S_WHITE => { s with gids_white := s.gids_white ++ [g] }
  | Stone.S_OFFBOARD => { s with gids_offboard := s.gids_offboard ++ [g] }

/-- memset(&s, 0, sizeof(s)). -/
def initSelfatari : SelfatariState := ⟨[], [], [], [], false, 0, 0⟩

/-- One step of the collector: bucket the neighbor c's (color, group id)
pair unless that group id is already recorded for that color. -/
def collect_step (b : Board) (s : SelfatariState) (c : Nat) : SelfatariState :=
  let col := b.board_at c
  let g := b.group_at c
  if g ∈ s.groupids col then s else s.push col g

/-- The neighbor-group collector: the foreach_neighbor loop at the top of
is_bad_selfatari_slow, bucketing each neighbor's (color, group id) with
duplicate-id suppression. -/
def collect (b : Board) (t : Nat) : SelfatariState :=
  (b.neighbors t).foldl (collect_step b) initSelfatari

/-- neighbor_count_at(b, c, color): how many of c's neighbors hold color. -/
def neighbor_count_at (b : Board) (c : Nat) (col : Stone) : Nat :=
  ((b.neighbors c).filter (fun x => b.board_at x == col)).length

/-- immediate_liberty_count(b, c) = neighbor_count_at(b, c, S_NONE). -/
def immediate_liberty_count (b : Board) (c : Nat) : Nat :=
  neighbor_count_at b c Stone.S_NONE

/-- board_group_other_lib(b, g, to):
lib[  lib[0] != to ? 0 : 1  ] of the 2-liberty group g. -/
def board_group_other_lib (b : Board) (g t : Nat) : Nat :=
  if b.lib g 0 == t then b.lib g 1 else b.lib g 0

/-- The extraction loop at the top of three_liberty_suicide: the entries of
lib[0..2] different from the candidate point, in array order. -/
def other_libs_of (b : Board) (g t : Nat) : List Nat :=
  ((List.range 3).map (b.lib g)).filter (fun l => l != t)

/-- One iteration of three_liberty_suicide's final for-loop (index i),
for liberty li whose companion liberty is lother:
some false = the enclosing function returns false (the other liberty is a
one-point eye); none = goto next_lib (escape found); some true = the
enclosing function returns true (li has no way out). -/
def tls_step (b : Board) (g : Nat) (color : Stone) (li lother : Nat)
    (adj_i onb : Bool) : Option Bool :=
  let null_libs : Nat := (if onb then 1 else 0) + (if adj_i then 1 else 0)
  if b.board_is_one_point_eye lother color then some false
  else if immediate_liberty_count b li - null_libs > 1 then none
  else if (b.neighbors li).any (fun c =>
      b.board_at c == color && b.group_at c != g
        && decide (b.libs (b.group_at c) > 1)) then none
  else some true

/-- three_liberty_suicide from selfatari.c. -/
def three_liberty_suicide (b : Board) (g : Nat) (color : Stone) (t : Nat)
    (s : SelfatariState) : Bool :=
  let other_libs := other_libs_of b g t
  let l0 := other_libs.getD 0 0
  let l1 := other_libs.getD 1 0
  let adj0 := b.coord_is_adjecent l0 t
  let adj1 := b.coord_is_adjecent l1 t
  if immediate_liberty_count b t - (if adj0 || adj1 then 1 else 0) > 0 then
    false
  else if (s.groupids color).length > 1 then
    false
  else if (s.groupids (stone_other color)).any
      (fun g2 => decide (b.libs g2 ≤ 2)) then
    false
  else
    let onb := b.coord_is_adjecent l0 l1
    match tls_step b g color l0 l1 adj0 onb with
    | some r => r
    | none =>
      match tls_step b g color l1 l0 adj1 onb with
      | some r => r
      | none => false

/-- The for-loop of examine_friendly_groups, processing the remaining
friendly bucket entries with the current state.  Early `return d` in the
C code becomes `(some d, s)`; loop exhaustion becomes `(none, s)`. -/
def examine_friendly_groups_go (b : Board) (color : Stone) (t : Nat) :
    SelfatariState → List Nat → Option Bool × SelfatariState
  | s, [] => (none, s)
  | s, g :: rest =>
    if b.libs g = 1 then
      examine_friendly_groups_go b color t
        (if s.needs_more_lib = 0 then { s with friend_has_no_libs := true } else s)
        rest
    else if b.libs g > 2 then
      if b.libs g = 3 ∧ three_liberty_suicide b g color t s = true then
        (some true, s)
      else (some false, s)
    else
      let lib2 := board_group_other_lib b g t
      if s.needs_more_lib ≠ 0 ∧ s.needs_more_lib ≠ g
          ∧ s.needs_more_lib_except ≠ lib2 then
        (some false, s)
      else if (s.groupids Stone.S_NONE).length > 1 then
        (some false, s)
      else if (s.groupids Stone.S_NONE).length > 0
          ∧ b.coord_is_adjecent lib2 t = false then
        (some false, s)
      else
        examine_friendly_groups_go b color t
          { s with needs_more_lib := g, needs_more_lib_except := lib2,
                   friend_has_no_libs := false }
          rest

/-- examine_friendly_groups from selfatari.c. -/
def examine_friendly_groups (b : Board) (color : Stone) (t : Nat)
    (s : SelfatariState) : Option Bool × SelfatariState :=
  examine_friendly_groups_go b color t s (s.groupids color)

/-- The for-loop of examine_enemy_groups, carrying can_capture.
none = the enclosing function returns false early; some cc = the loop
completed with final can_capture value cc. -/
def examine_enemy_groups_go (b : Board) (color : Stone) (s : SelfatariState) :
    List Nat → Nat → Option Nat
  | [], cc => some cc
  | g :: rest, cc =>
    if b.libs g > 1 then
      examine_enemy_groups_go b color s rest cc
    else if (s.groupids Stone.S_NONE).length > 0 ∨ b.group_is_onestone g = false then
      none
    else if neighbor_count_at b g color + neighbor_count_at b g Stone.S_OFFBOARD = 3
        ∧ s.friend_has_no_libs = false then
      none
    else if s.needs_more_lib ≠ 0 ∨ (cc ≠ 0 ∧ cc ≠ g) then
      none
    else
      examine_enemy_groups_go b color s rest g

/-- examine_enemy_groups from selfatari.c. -/
def examine_enemy_groups (b : Board) (color : Stone) (t : Nat)
    (s : SelfatariState) : Option Bool :=
  match examine_enemy_groups_go b color s (s.groupids (stone_other color)) 0 with
  | none => some false
  | some cc =>
    if s.needs_more_lib = 0 ∧ cc = 0 ∧ (s.groupids Stone.S_NONE).length = 0 then
      some true
    else none

/-- The per-neighbor internality test inside setup_nakade_or_snapback's
foreach_neighbor over lib2: true = this neighbor is fine (continue),
false = goto next_group. -/
def nakade_nb_ok (b : Board) (color : Stone) (t g : Nat) (c : Nat) : Bool :=
  if b.board_at c == Stone.S_OFFBOARD then true
  else if b.board_at c == Stone.S_NONE then c == t
  else if b.board_at c == color then b.libs (b.group_at c) == 2
  else
    let g2 := b.group_at c
    g == g2 || b.libs g2 == 1
      || (b.libs g2 == 2 && (b.lib g2 0 == t || b.lib g2 1 == t))

/-- The for-loop of setup_nakade_or_snapback.  `goto next_group` lands on
`if (s->groupcts[color]) return -1;` before continuing with the next
enemy group, hence the shared `next` continuation. -/
def setup_nakade_or_snapback_go (b : Board) (color : Stone) (t : Nat)
    (s : SelfatariState) : List Nat → Option Bool
  | [] => none
  | g :: rest =>
    let next : Option Bool :=
      if (s.groupids color).length ≠ 0 then none
      else setup_nakade_or_snapback_go b color t s rest
    if b.libs g ≠ 2 then next
    else
      let lib2 := board_group_other_lib b g t
      if ((b.neighbors lib2).all (fun c => nakade_nb_ok b color t g c)) = false then
        next
      else if (s.groupids color).length < 1 then
        some false
      else if (s.groupids color).length = 1
          ∧ b.group_is_onestone ((s.groupids color).getD 0 0) = true then
        if b.libs ((s.groupids color).getD 0 0) = 1 then some false else next
      else if (s.groupids color).any (fun g2 =>
          b.libs g2 == 2 && b.lib g2 0 != lib2 && b.lib g2 1 != lib2) then
        next
      else
        some false

/-- setup_nakade_or_snapback from selfatari.c. -/
def setup_nakade_or_snapback (b : Board) (color : Stone) (t : Nat)
    (s : SelfatariState) : Option Bool :=
  setup_nakade_or_snapback_go b color t s (s.groupids (stone_other color))

/-- check_throwin from selfatari.c. -/
def check_throwin (b : Board) (color : Stone) (t : Nat)
    (s : SelfatariState) : Option Bool :=
  if neighbor_count_at b t Stone.S_OFFBOARD < 2
      ∧ neighbor_count_at b t (stone_other color)
          + neighbor_count_at b t Stone.S_OFFBOARD = 3
      ∧ b.board_is_false_eyelike t (stone_other color) = true then
    if (s.groupids color).length = 0 then
      if (b.neighbors t).any (fun c =>
          b.board_at c == Stone.S_NONE
            && decide (neighbor_count_at b c (stone_other color)
                + neighbor_count_at b c Stone.S_OFFBOARD < 2)) then
        none
      else some false
    else
      let g := (s.groupids color).getD 0 0
      if b.libs g = 1 then some true
      else if b.group_is_onestone g = true then some false
      else none
  else none

/-- is_bad_selfatari_slow: the classifier orchestrator. -/
def is_bad_selfatari_slow (b : Board) (color : Stone) (t : Nat) : Bool :=
  let s0 := collect b t
  match examine_friendly_groups b color t s0 with
  | (some d, _) => d
  | (none, s1) =>
    match examine_enemy_groups b color t s1 with
    | some d => d
    | none =>
      match setup_nakade_or_snapback b color t s1 with
      | some d => d
      | none =>
        match check_throwin b color t s1 with
        | some d => d
        | none => true

/-- Modelled from the spec: the public entry point `isBadSelfAtari`
(`is_bad_selfatari`, declared in tactics/selfatari.h, which is not part
of src/).  Per spec section 4.8 the Cousin Selector "recursively
classif[ies] lib2 as a candidate move for the same color" with the
classifier, and per section 4.7 the classifier is the orchestrator, so
this entry point is the Classifier Orchestrator. -/
def is_bad_selfatari (b : Board) (color : Stone) (t : Nat) : Bool :=
  is_bad_selfatari_slow b color t

/-- The eligible-group collection loop of selfatari_cousin: every neighbor
of coord holding a stone of our color whose group has exactly 2 liberties
contributes its group id (duplicates are kept, as in the C code). -/
def cousin_groups (b : Board) (color : Stone) (coord : Nat) : List Nat :=
  (b.neighbors coord).foldl
    (fun acc c =>
      if b.board_at c == color && b.libs (b.group_at c) == 2 then
        acc ++ [b.group_at c]
      else acc)
    []

/-- selfatari_cousin from selfatari.c; `r` models the value drawn by
fast_random (the C picks groups[fast_random(groups_n)], i.e. a uniformly
random index below groups_n; any natural r is mapped into range by %).
`none` is the `pass` return. -/
def selfatari_cousin (b : Board) (color : Stone) (coord : Nat) (r : Nat) :
    Option Nat :=
  let groups := cousin_groups b color coord
  if groups.length = 0 then none
  else
    let group := groups.getD (r % groups.length) 0
    let lib2 := board_group_other_lib b group coord
    if is_bad_selfatari b color lib2 = true then none
    else some lib2

/-
  Concrete board instances used by the theorems below.

  Coordinates are encoded as enc(x, y) = (x+1) + 16*(y+1) on a 9x9 board
  with a one-cell off-board margin (stride 16), matching pachi's layout:
  `neighbors c = [c-16, c-1, c+1, c+16]`, and `coord_is_adjecent` is
  |difference| ∈ {1, 16}.  Cells outside x, y ∈ [0, 8] are off-board and
  all unlisted on-board cells are empty.
-/

/-- A coordinate is on the 9x9 playing area of the encoded board. -/
def onBoard (c : Nat) : Bool :=
  decide (1 ≤ c % 16) && decide (c % 16 ≤ 9)
    && decide (1 ≤ c / 16) && decide (c / 16 ≤ 9)

/-- Association-list lookup with a default. -/
def natLookup (l : List (Nat × Nat)) (c d : Nat) : Nat :=
  match l.find? (fun p => p.1 == c) with
  | some p => p.2
  | none => d

/-- Association-list lookup for liberty arrays. -/
def libLookup (l : List (Nat × List Nat)) (g : Nat) : List Nat :=
  match l.find? (fun p => p.1 == g) with
  | some p => p.2
  | none => []

/-- Build a concrete board from stone, group, liberty-count, liberty-array,
single-stone, one-point-eye and false-eyelike tables. -/
def mkBoard (stones : List (Nat × Stone)) (groups : List (Nat × Nat))
    (glibs : List (Nat × Nat)) (libarr : List (Nat × List Nat))
    (ones : List Nat) (eyePts : List (Nat × Stone))
    (feyePts : List (Nat × Stone)) : Board where
  board_at c :=
    match stones.find? (fun p => p.1 == c) with
    | some p => p.2
    | none => if onBoard c then Stone.S_NONE else Stone.S_OFFBOARD
  group_at c := natLookup groups c 0
  libs g := natLookup glibs g 0
  lib g i := (libLookup libarr g).getD i 0
  neighbors c := [c - 16, c - 1, c + 1, c + 16]
  coord_is_adjecent a b := a + 1 == b || b + 1 == a || a + 16 == b || b + 16 == a
  board_is_one_point_eye c col := (eyePts.find? (fun p => p.1 == c && p.2 == col)).isSome
  board_is_false_eyelike c col := (feyePts.find? (fun p => p.1 == c && p.2 == col)).isSome
  group_is_onestone g := ones.contains g

/-- Ko-capture position for C1 (Black to play at t = 35 = (2,1)):
```
 y2:  .  O  O  O  .        50 51 52 (group U, base 34)
 y1:  .  O  *  O  .        34 [35] 36
 y0:  .  X  O  X  .        18 19 20   (19 = white ko stone W)
```
White W = {19} is in atari (lib 35); exactly 3 of its neighbors are black
or off-board (ko shape).  Black has no friendly neighbor at 35, no empty
neighbor, and W is a single stone. -/
def Bko : Board :=
  mkBoard
    [(19, Stone.S_WHITE), (34, Stone.S_WHITE), (36, Stone.S_WHITE),
     (50, Stone.S_WHITE), (51, Stone.S_WHITE), (52, Stone.S_WHITE),
     (18, Stone.S_BLACK), (20, Stone.S_BLACK)]
    [(19, 19), (34, 34), (36, 34), (50, 34), (51, 34), (52, 34),
     (18, 18), (20, 20)]
    [(19, 1), (34, 8), (18, 1), (20, 1)]
    [(19, [35]), (34, [33, 35, 67])]
    [19, 18, 20]
    []
    []

/-- Plain-suicide position for C2 (Black to play at t = 17 = (0,0)):
```
 y1:  O  O  .        33 34
 y0:  *  O  .        [17] 18
```
The corner point 17 has two off-board neighbors and two neighbors in the
healthy white group V = {18, 33, 34} (5 liberties): no friendly group, no
capturable enemy group, no empty neighbor. -/
def B2 : Board :=
  mkBoard
    [(18, Stone.S_WHITE), (34, Stone.S_WHITE), (33, Stone.S_WHITE)]
    [(18, 18), (34, 18), (33, 18)]
    [(18, 5)]
    [(18, [17, 19, 35])]
    []
    []
    []

/-- Two-friendly-2-liberty-group position for C3 (Black at t = 35 = (2,1)):
```
 y2:  .  a  O  c  .        49 50(=a) 51 52(=c)
 y1:  O  X  *  X  O        33 34 [35] 36 37
 y0:  .  O  O  O  .        18 19 20
```
F1 = {34} has liberties {35, 50}, F2 = {36} has liberties {35, 52}:
different other liberties, so examining F2 finds a needs_more_lib
requirement recorded by F1 with a different except-liberty. -/
def B3 : Board :=
  mkBoard
    [(34, Stone.S_BLACK), (36, Stone.S_BLACK),
     (18, Stone.S_WHITE), (19, Stone.S_WHITE), (20, Stone.S_WHITE),
     (33, Stone.S_WHITE), (37, Stone.S_WHITE), (51, Stone.S_WHITE)]
    [(34, 34), (36, 36), (18, 18), (19, 18), (20, 18),
     (33, 33), (37, 37), (51, 51)]
    [(34, 2), (36, 2), (18, 3), (33, 2), (37, 3), (51, 4)]
    [(34, [35, 50]), (36, [35, 52]), (18, [17, 21, 35]),
     (33, [17, 49]), (37, [21, 38, 53]), (51, [35, 50, 52, 67])]
    [34, 36, 33, 37, 51]
    []
    []

/-- One-empty-neighbor position for C4 (Black at t = 35 = (2,1)):
```
 y3:  .  a  .  .           65 66(=a, F's other liberty)
 y2:  O  X  O  .           49 50 51
 y1:  O  X  *  O           33 34 [35] 36
 y0:  .  O  e  .           18 19(=e, the only empty neighbor)
```
F = {34, 50} has liberties {35, 66}; the candidate 35 has exactly one
empty neighbor 19, and 66 is adjacent neither to 35 nor to 19. -/
def B4 : Board :=
  mkBoard
    [(34, Stone.S_BLACK), (50, Stone.S_BLACK),
     (18, Stone.S_WHITE), (33, Stone.S_WHITE), (49, Stone.S_WHITE),
     (51, Stone.S_WHITE), (36, Stone.S_WHITE)]
    [(34, 34), (50, 34), (18, 18), (33, 33), (49, 33), (51, 51), (36, 36)]
    [(34, 2), (18, 2), (33, 2), (51, 3), (36, 4)]
    [(34, [35, 66]), (18, [17, 19]), (33, [17, 65]), (51, [35, 52, 67])]
    [18, 51, 36]
    []
    []

/-- Corner 3-liberty position for C5 and C10 (Black at t = 19 = (2,0)):
```
 y2:  b  O  .              49(=b) 50
 y1:  X  X  O  .           33 34 35
 y0:  E  X  *  O           17(=E) 18 [19] 20
```
Black g = {18, 33, 34} has exactly the liberties {17, 19, 49}; 17 is a
one-point eye for Black (both its on-board neighbors are g, both its
diagonals off-board or g); 49 is not an eye.  The liberty array of g is
[17, 19, 49], so the two non-candidate liberties are [17, 49]: the eye
occupies array position 0. -/
def B5 : Board :=
  mkBoard
    [(18, Stone.S_BLACK), (33, Stone.S_BLACK), (34, Stone.S_BLACK),
     (20, Stone.S_WHITE), (35, Stone.S_WHITE), (50, Stone.S_WHITE)]
    [(18, 18), (33, 18), (34, 18), (20, 20), (35, 35), (50, 50)]
    [(18, 3), (20, 3), (35, 3), (50, 3)]
    [(18, [17, 19, 49]), (20, [19, 21, 36]), (35, [19, 36, 51]),
     (50, [49, 51, 66])]
    [20, 35, 50]
    [(17, Stone.S_BLACK)]
    []

/-- The same position as B5 but with g's liberty array stored in the
order [49, 19, 17] (the internal order of the liberty array is board
bookkeeping, not a property of the position), so the eye 17 occupies
array position 1 of the two non-candidate liberties [49, 17]. -/
def B5b : Board :=
  { B5 with lib := fun g i => if g == 18 then [49, 19, 17].getD i 0 else B5.lib g i }

/-- Nakade/snapback scan position for C6 and C9 (Black at t = 19 = (2,0)):
```
 y3:  .  O  O  .           65 66 67
 y2:  X  X  X  O  .        49 50 51 52
 y1:  O  L  O  X  .        33 34(=L) 35 36  37
 y0:  X  X  *  O  .  .     17 18 [19] 20  21 22
```
F = {17, 18} (black, liberties {19, 34}); H1 = {20} (white, liberties
{19, 21}); H2 = {35} (white, liberties {19, 34}); the white stone 33 is
in atari (liberty 34); K = {49, 50, 51} (black, liberties {34, 65}).
H1 is disqualified in setup_nakade_or_snapback (its other liberty 21 has
the empty non-candidate neighbor 22), while H2 validates and its nakade
branch returns "not bad". -/
def B6 : Board :=
  mkBoard
    [(17, Stone.S_BLACK), (18, Stone.S_BLACK), (49, Stone.S_BLACK),
     (50, Stone.S_BLACK), (51, Stone.S_BLACK), (36, Stone.S_BLACK),
     (20, Stone.S_WHITE), (35, Stone.S_WHITE), (33, Stone.S_WHITE),
     (52, Stone.S_WHITE), (66, Stone.S_WHITE), (67, Stone.S_WHITE)]
    [(17, 17), (18, 17), (49, 49), (50, 49), (51, 49), (36, 36),
     (20, 20), (35, 35), (33, 33), (52, 52), (66, 66), (67, 66)]
    [(17, 2), (49, 2), (36, 1), (20, 2), (35, 2), (33, 1), (52, 2), (66, 4)]
    [(17, [19, 34]), (49, [34, 65]), (20, [19, 21]), (35, [19, 34]),
     (33, [34]), (36, [37]), (52, [53, 68]), (66, [65, 82, 68])]
    [36, 20, 35, 33, 52]
    []
    [(19, Stone.S_WHITE)]

/-- B6 with the neighbor enumeration order at the candidate point 19
permuted so that the white neighbor 35 (group H2) is visited before 20
(group H1); everything else is unchanged. -/
def B6r : Board :=
  { B6 with neighbors := fun c => if c == 19 then [3, 18, 35, 20] else B6.neighbors c }

/-- B6 with the neighbor enumeration order at 19 permuted in a way that
leaves the collector's buckets unchanged (the off-board neighbor is
visited after the black one; the two white stones keep their order). -/
def B6w : Board :=
  { B6 with neighbors := fun c => if c == 19 then [18, 3, 20, 35] else B6.neighbors c }

/-- Throw-in position for C7 (Black at t = 18 = (1,0)):
```
 y2:  .  .  .              49 50
 y1:  O  O  X  .           33 34 35
 y0:  X  *  O  X           17 [18] 19 20
```
F = {17} (black) is in atari (liberty 18); the white ko stone {19} is in
atari (liberty 18) with 3 black/off-board neighbors; W2 = {33, 34} has 3
liberties.  18 is false-eyelike for White, has one off-board and two
white neighbors, and exactly one friendly neighboring group. -/
def B7 : Board :=
  mkBoard
    [(17, Stone.S_BLACK), (20, Stone.S_BLACK), (35, Stone.S_BLACK),
     (19, Stone.S_WHITE), (33, Stone.S_WHITE), (34, Stone.S_WHITE)]
    [(17, 17), (20, 20), (35, 35), (19, 19), (33, 33), (34, 33)]
    [(17, 1), (19, 1), (33, 3), (20, 2), (35, 2)]
    [(17, [18]), (19, [18]), (33, [49, 18, 50]), (20, [21, 36]), (35, [36, 51])]
    [17, 20, 35, 19]
    []
    [(18, Stone.S_WHITE)]

/-- Cousin-selector position for C8 (coord = 19 = (2,0), Black):
```
 y1:  O  O  O  O  O  .     33 34 35 36 37  38
 y0:  a  X  @  X  b  X  X  17(=a) 18 [19] 20 21(=b) 22 23
```
Both black neighbors of 19 are 2-liberty single stones: g1 = {18} with
liberties {17, 19} and g2 = {20} with liberties {19, 21}.  Filling 17 is
a bad self-atari (corner, no escape), but filling 21 is not (it connects
to the healthy group Hb = {22, 23} with 4 liberties). -/
def B8 : Board :=
  mkBoard
    [(18, Stone.S_BLACK), (20, Stone.S_BLACK), (22, Stone.S_BLACK),
     (23, Stone.S_BLACK),
     (33, Stone.S_WHITE), (34, Stone.S_WHITE), (35, Stone.S_WHITE),
     (36, Stone.S_WHITE), (37, Stone.S_WHITE)]
    [(18, 18), (20, 20), (22, 22), (23, 22),
     (33, 33), (34, 33), (35, 33), (36, 33), (37, 33)]
    [(18, 2), (20, 2), (22, 4), (33, 9)]
    [(18, [17, 19]), (20, [19, 21]), (22, [21, 38, 24]), (33, [17, 49, 50])]
    [18, 20]
    []
    []

/-- The classification state after the collector and the friendly-group
scan on B3 have processed the first friendly group F1 = {34} (it recorded
needs_more_lib = 34 with needs_more_lib_except = 50). -/
def s3mid : SelfatariState := ⟨[], [34, 36], [18, 51], [], false, 34, 50⟩

/-- The classification state s1 reaching the nakade/snapback scan on B6:
buckets from the collector at 19, with the friendly scan having recorded
needs_more_lib = 17 (group F) and needs_more_lib_except = 34. -/
def s6 : SelfatariState := ⟨[], [17], [20, 35], [0], false, 17, 34⟩

/-- The classification state s1 reaching the throw-in analyzer on B7:
buckets from the collector at 18, with friend_has_no_libs set by the
friendly group {17} in atari. -/
def s7 : SelfatariState := ⟨[], [17], [19, 33], [0], true, 0, 0⟩

/-- Two boards present the same position queries, with the neighbor
enumeration orders pointwise permutations of one another. -/
def board_perm_eq (b' b : Board) : Prop :=
  b'.board_at = b.board_at
  ∧ b'.group_at = b.group_at
  ∧ b'.libs = b.libs
  ∧ b'.lib = b.lib
  ∧ b'.coord_is_adjecent = b.coord_is_adjecent
  ∧ b'.board_is_one_point_eye = b.board_is_one_point_eye
  ∧ b'.board_is_false_eyelike = b.board_is_false_eyelike
  ∧ b'.group_is_onestone = b.group_is_onestone
  ∧ ∀ c, (b'.neighbors c).Perm (b.neighbors c)


/-
  Helper lemmas shared by the claim theorems.
-/

/-- A list containing two distinct elements has length at least 2. -/
theorem two_mem_le_length {l : List Nat} {a c : Nat} (hne : a ≠ c)
    (ha : a ∈ l) (hc : c ∈ l) : 2 ≤ l.length := by
  induction l with
  | nil => exact absurd ha (List.not_mem_nil a)
  | cons x xs ih =>
    simp only [List.length_cons]
    rcases List.mem_cons.mp ha with rfl | ha2
    · rcases List.mem_cons.mp hc with h1 | hc2
      · exact absurd h1.symm hne
      · have := List.length_pos.mpr (List.ne_nil_of_mem hc2)
        omega
    · rcases List.mem_cons.mp hc with rfl | hc2
      · have := List.length_pos.mpr (List.ne_nil_of_mem ha2)
        omega
      · have := ih ha2 hc2
        omega

/-- Permuting a list does not change `any`. -/
theorem perm_any {α : Type} (f : α → Bool) {l l' : List α} (h : l.Perm l') :
    l.any f = l'.any f := by
  induction h with
  | nil => rfl
  | cons x _ ih => simp only [List.any_cons, ih]
  | swap x y l => simp only [List.any_cons, Bool.or_left_comm]
  | trans _ _ ih1 ih2 => rw [ih1, ih2]

/-- Permuting a list does not change `all`. -/
theorem perm_all {α : Type} (f : α → Bool) {l l' : List α} (h : l.Perm l') :
    l.all f = l'.all f := by
  induction h with
  | nil => rfl
  | cons x _ ih => simp only [List.all_cons, ih]
  | swap x y l => simp only [List.all_cons, Bool.and_left_comm]
  | trans _ _ ih1 ih2 => rw [ih1, ih2]

/-- Permuting a list does not change the number of entries passing a filter. -/
theorem perm_filter_length {α : Type} (f : α → Bool) {l l' : List α} (h : l.Perm l') :
    (l.filter f).length = (l'.filter f).length :=
  (h.filter f).length_eq

/-- On a board built by mkBoard, any coordinate adjacent to t is one of
t's four enumerated neighbors. -/
theorem mkBoard_adj_mem (st : List (Nat × Stone)) (gr gl : List (Nat × Nat))
    (la : List (Nat × List Nat)) (ons : List Nat) (ey fe : List (Nat × Stone))
    (t : Nat) :
    ∀ c : Nat, (mkBoard st gr gl la ons ey fe).coord_is_adjecent c t = true
      → c ∈ (mkBoard st gr gl la ons ey fe).neighbors t := by
  intro c h
  show c ∈ [t - 16, t - 1, t + 1, t + 16]
  have h' : (c + 1 == t || t + 1 == c || c + 16 == t || t + 16 == c) = true := h
  simp only [Bool.or_eq_true, beq_iff_eq] at h'
  simp only [List.mem_cons, List.not_mem_nil, or_false]
  omega

/-- The friendly-group scan never changes the empty-color bucket. -/
theorem efg_go_gids_none (b : Board) (color : Stone) (t : Nat) :
    ∀ (l : List Nat) (s : SelfatariState),
      ((examine_friendly_groups_go b color t s l).2).gids_none = s.gids_none := by
  intro l
  induction l with
  | nil => intro s; rfl
  | cons g rest ih =>
    intro s
    simp only [examine_friendly_groups_go]
    split
    · rw [ih]
      split <;> rfl
    · split
      · split <;> rfl
      · split
        · rfl
        · split
          · rfl
          · split
            · rfl
            · rw [ih]

/-- A collector step on a non-empty-colored neighbor leaves the empty
bucket unchanged. -/
theorem collect_step_gids_none (b : Board) (s : SelfatariState) (c : Nat)
    (h : b.board_at c ≠ Stone.S_NONE) :
    (collect_step b s c).gids_none = s.gids_none := by
  show (if b.group_at c ∈ s.groupids (b.board_at c) then s
        else s.push (b.board_at c) (b.group_at c)).gids_none = s.gids_none
  cases hcol : b.board_at c with
  | S_NONE => exact absurd hcol h
  | S_BLACK => split <;> rfl
  | S_WHITE => split <;> rfl
  | S_OFFBOARD => split <;> rfl

/-- If no neighbor of t is empty, the collector's empty bucket is empty. -/
theorem collect_gids_none (b : Board) (t : Nat)
    (hne : ∀ c ∈ b.neighbors t, b.board_at c ≠ Stone.S_NONE) :
    (collect b t).gids_none = [] := by
  unfold collect
  have key : ∀ (l : List Nat) (s : SelfatariState),
      (∀ c ∈ l, b.board_at c ≠ Stone.S_NONE) →
      (l.foldl (collect_step b) s).gids_none = s.gids_none := by
    intro l
    induction l with
    | nil => intro s _; rfl
    | cons x xs ih =>
      intro s hl
      simp only [List.foldl_cons]
      rw [ih _ (fun c hc => hl c (List.mem_cons_of_mem x hc))]
      exact collect_step_gids_none b s x (hl x (List.mem_cons_self x xs))
  exact key _ _ hne

/-- The enemy-group scan skips over groups with more than one liberty. -/
theorem eeg_go_skip_healthy (b : Board) (color : Stone) (s : SelfatariState)
    (pre : List Nat) (l : List Nat) (cc : Nat)
    (hpre : ∀ h ∈ pre, b.libs h > 1) :
    examine_enemy_groups_go b color s (pre ++ l) cc
      = examine_enemy_groups_go b color s l cc := by
  induction pre with
  | nil => rfl
  | cons x xs ih =>
    simp only [List.cons_append, examine_enemy_groups_go]
    rw [if_pos (hpre x (List.mem_cons_self x xs))]
    exact ih (fun h hh => hpre h (List.mem_cons_of_mem x hh))

/-- The friendly-group scan skips over groups already in atari (they only
update the scalar state). -/
theorem efg_go_skip_atari (b : Board) (color : Stone) (t : Nat)
    (pre : List Nat) (l : List Nat)
    (hpre : ∀ h ∈ pre, b.libs h = 1) :
    ∀ s : SelfatariState, ∃ s' : SelfatariState,
      examine_friendly_groups_go b color t s (pre ++ l)
        = examine_friendly_groups_go b color t s' l := by
  induction pre with
  | nil => intro s; exact ⟨s, rfl⟩
  | cons x xs ih =>
    intro s
    have hx : b.libs x = 1 := hpre x (List.mem_cons_self x xs)
    simp only [List.cons_append, examine_friendly_groups_go]
    rw [if_pos hx]
    exact ih (fun h hh => hpre h (List.mem_cons_of_mem x hh)) _

/-- If the friendly-group analysis returns a verdict, it is the final one. -/
theorem is_bad_of_efg_fst (b : Board) (color : Stone) (t : Nat) (d : Bool)
    (h : (examine_friendly_groups b color t (collect b t)).1 = some d) :
    is_bad_selfatari_slow b color t = d := by
  simp only [is_bad_selfatari_slow]
  generalize hq : examine_friendly_groups b color t (collect b t) = p
  rw [hq] at h
  rcases p with ⟨a, s⟩
  simp only at h
  subst h
  rfl

/-- If the friendly scan is inconclusive and the enemy analysis returns a
verdict, that verdict is final. -/
theorem is_bad_of_eeg (b : Board) (color : Stone) (t : Nat)
    (s1 : SelfatariState) (d : Bool)
    (hf : examine_friendly_groups b color t (collect b t) = (none, s1))
    (he : examine_enemy_groups b color t s1 = some d) :
    is_bad_selfatari_slow b color t = d := by
  simp only [is_bad_selfatari_slow, hf, he]

/-- If the friendly and enemy analyses are inconclusive and the
nakade/snapback analysis returns a verdict, that verdict is final. -/
theorem is_bad_of_snos (b : Board) (color : Stone) (t : Nat)
    (s1 : SelfatariState) (d : Bool)
    (hf : examine_friendly_groups b color t (collect b t) = (none, s1))
    (he : examine_enemy_groups b color t s1 = none)
    (hs : setup_nakade_or_snapback b color t s1 = some d) :
    is_bad_selfatari_slow b color t = d := by
  simp only [is_bad_selfatari_slow, hf, he, hs]

/-- If the first three analyses are inconclusive, the throw-in verdict
(or, failing that, the default "bad") is final. -/
theorem is_bad_of_throwin (b : Board) (color : Stone) (t : Nat)
    (s1 : SelfatariState)
    (hf : examine_friendly_groups b color t (collect b t) = (none, s1))
    (he : examine_enemy_groups b color t s1 = none)
    (hs : setup_nakade_or_snapback b color t s1 = none) :
    is_bad_selfatari_slow b color t
      = (match check_throwin b color t s1 with
         | some d => d
         | none => true) := by
  simp only [is_bad_selfatari_slow, hf, he, hs]

/-- C1, counterexample.  On the ko board Bko the enemy scan reaches the
ko-shaped single white stone 19 in atari, with no outside empty liberty,
no multi-stone capture, no needs_more_lib credit and friend_has_no_libs
false — and the classifier answers "not bad" (false), not "bad" (true)
as the claim states. -/
theorem C1_ko_counterexample :
    Bko.libs 19 = 1
    ∧ Bko.group_is_onestone 19 = true
    ∧ neighbor_count_at Bko 19 Stone.S_BLACK
        + neighbor_count_at Bko 19 Stone.S_OFFBOARD = 3
    ∧ examine_friendly_groups Bko Stone.S_BLACK 35 (collect Bko 35)
        = (none, ⟨[], [], [19, 34], [], false, 0, 0⟩)
    ∧ Bko.libs 34 > 1
    ∧ is_bad_selfatari_slow Bko Stone.S_BLACK 35 = false := by
  decide

/-- C1, amended: when the enemy-group scan reaches an adjacent enemy
group in atari that is a single stone in ko shape (exactly 3 of its
neighbors are the moving color or off-board), with no outside empty
liberty and no multi-stone capture, and friend_has_no_libs is false, the
classifier treats taking the lone ko stone as acceptable and immediately
returns "not bad" (false). -/
theorem C1_ko_capture_not_bad (b : Board) (color : Stone) (t : Nat)
    (s1 : SelfatariState) (pre rest : List Nat) (g : Nat)
    (hf : examine_friendly_groups b color t (collect b t) = (none, s1))
    (hbucket : s1.groupids (stone_other color) = pre ++ g :: rest)
    (hpre : ∀ h ∈ pre, b.libs h > 1)
    (hg : ¬ b.libs g > 1)
    (hnone : (s1.groupids Stone.S_NONE).length = 0)
    (hone : b.group_is_onestone g = true)
    (hko : neighbor_count_at b g color + neighbor_count_at b g Stone.S_OFFBOARD = 3)
    (hfh : s1.friend_has_no_libs = false) :
    is_bad_selfatari_slow b color t = false := by
  have hgo : examine_enemy_groups_go b color s1 (s1.groupids (stone_other color)) 0
      = none := by
    rw [hbucket, eeg_go_skip_healthy b color s1 pre (g :: rest) 0 hpre]
    simp only [examine_enemy_groups_go]
    rw [if_neg hg]
    rw [if_neg (by simp [hnone, hone])]
    rw [if_pos ⟨hko, hfh⟩]
  apply is_bad_of_eeg b color t s1 false hf
  unfold examine_enemy_groups
  rw [hgo]

/-- C1, witness for the amended theorem at the concrete ko board. -/
theorem C1_ko_capture_not_bad_witness :
    (¬ Bko.libs 19 > 1) ∧ Bko.group_is_onestone 19 = true
    ∧ is_bad_selfatari_slow Bko Stone.S_BLACK 35 = false := by
  refine ⟨by decide, by decide, ?_⟩
  exact C1_ko_capture_not_bad Bko Stone.S_BLACK 35
    ⟨[], [], [19, 34], [], false, 0, 0⟩ [] [34] 19
    (by decide) (by decide) (by decide) (by decide) (by decide) (by decide)
    (by decide) (by decide)

/-- C2: if the friendly and enemy analyses complete without an earlier
verdict, there is no capture candidate (the enemy loop finishes with
can_capture = 0), needs_more_lib is unset and the candidate point has no
empty neighbor at all, the move is outright suicide: verdict "bad". -/
theorem C2_outright_suicide (b : Board) (color : Stone) (t : Nat)
    (s1 : SelfatariState)
    (hf : examine_friendly_groups b color t (collect b t) = (none, s1))
    (he : examine_enemy_groups_go b color s1 (s1.groupids (stone_other color)) 0
        = some 0)
    (hn : s1.needs_more_lib = 0)
    (hne : ∀ c ∈ b.neighbors t, b.board_at c ≠ Stone.S_NONE) :
    is_bad_selfatari_slow b color t = true := by
  have h1 : (examine_friendly_groups b color t (collect b t)).2 = s1 := by rw [hf]
  have hz : s1.gids_none = [] := by
    rw [← h1]
    show ((examine_friendly_groups_go b color t (collect b t)
        ((collect b t).groupids color)).2).gids_none = []
    rw [efg_go_gids_none]
    exact collect_gids_none b t hne
  have hz2 : (s1.groupids Stone.S_NONE).length = 0 := by
    show s1.gids_none.length = 0
    rw [hz]
    rfl
  apply is_bad_of_eeg b color t s1 true hf
  unfold examine_enemy_groups
  rw [he]
  show (if s1.needs_more_lib = 0 ∧ (0 : Nat) = 0
        ∧ (s1.groupids Stone.S_NONE).length = 0 then some true else none)
      = some true
  rw [if_pos ⟨hn, rfl, hz2⟩]

/-- C2, witness at the concrete corner-suicide board B2. -/
theorem C2_outright_suicide_witness :
    (collect B2 17).needs_more_lib = 0
    ∧ ((collect B2 17).groupids Stone.S_NONE).length = 0
    ∧ is_bad_selfatari_slow B2 Stone.S_BLACK 17 = true := by
  refine ⟨by decide, by decide, ?_⟩
  exact C2_outright_suicide B2 Stone.S_BLACK 17
    ⟨[], [], [18], [0], false, 0, 0⟩
    (by decide) (by decide) (by decide) (by decide)

/-- C3, counterexample.  On B3 the second friendly 2-liberty group 36 is
examined while needs_more_lib records group 34 with a different other
liberty (50 versus 52) — and the scan returns "not bad" (false), not
"bad" (true) as the claim states. -/
theorem C3_conflict_counterexample :
    (collect B3 35).groupids Stone.S_BLACK = [34, 36]
    ∧ B3.libs 34 = 2 ∧ B3.libs 36 = 2
    ∧ board_group_other_lib B3 34 35 = 50
    ∧ board_group_other_lib B3 36 35 = 52
    ∧ examine_friendly_groups_go B3 Stone.S_BLACK 35 (collect B3 35) [34]
        = (none, s3mid)
    ∧ s3mid.needs_more_lib = 34
    ∧ s3mid.needs_more_lib_except = 50
    ∧ examine_friendly_groups_go B3 Stone.S_BLACK 35 s3mid [36]
        = (some false, s3mid)
    ∧ is_bad_selfatari_slow B3 Stone.S_BLACK 35 = false := by
  decide

/-- C3, amended: when a friendly 2-liberty group g is examined while
needs_more_lib records a different group whose recorded other-liberty
differs from g's other liberty, the friendly scan terminates immediately
with verdict "not bad" (false): the move connects the two groups and
keeps both recorded liberties. -/
theorem C3_needs_more_lib_conflict (b : Board) (color : Stone) (t : Nat)
    (s : SelfatariState) (g : Nat) (rest : List Nat)
    (h1 : s.needs_more_lib ≠ 0) (h2 : s.needs_more_lib ≠ g)
    (h3 : s.needs_more_lib_except ≠ board_group_other_lib b g t)
    (hl : b.libs g = 2) :
    examine_friendly_groups_go b color t s (g :: rest) = (some false, s) := by
  simp [examine_friendly_groups_go, hl, h1, h2, h3]

/-- C3, witness for the amended theorem in the mid-scan state of B3. -/
theorem C3_needs_more_lib_conflict_witness :
    (s3mid.needs_more_lib ≠ 0 ∧ s3mid.needs_more_lib ≠ 36
      ∧ s3mid.needs_more_lib_except ≠ board_group_other_lib B3 36 35
      ∧ B3.libs 36 = 2)
    ∧ examine_friendly_groups_go B3 Stone.S_BLACK 35 s3mid [36]
        = (some false, s3mid) := by
  refine ⟨by decide, ?_⟩
  exact C3_needs_more_lib_conflict B3 Stone.S_BLACK 35 s3mid 36 []
    (by decide) (by decide) (by decide) (by decide)

/-- C4, counterexample.  On B4 the friendly 2-liberty group 34 is
examined with no needs_more_lib requirement, the candidate 35 has
exactly one empty neighbor 19 which is not adjacent to the group's other
liberty 66 — and the verdict is "not bad" (false), not "bad" (true) as
the claim states. -/
theorem C4_local_liberty_counterexample :
    (collect B4 35).groupids Stone.S_BLACK = [34]
    ∧ B4.libs 34 = 2
    ∧ board_group_other_lib B4 34 35 = 66
    ∧ ((B4.neighbors 35).filter (fun c => B4.board_at c == Stone.S_NONE)) = [19]
    ∧ B4.coord_is_adjecent 19 66 = false
    ∧ (collect B4 35).needs_more_lib = 0
    ∧ is_bad_selfatari_slow B4 Stone.S_BLACK 35 = false := by
  decide

/-- C4, amended: when a friendly 2-liberty group is examined, no
needs_more_lib requirement is recorded yet, the empty-neighbor bucket of
the candidate holds one entry and the group's other liberty lib2 is not
adjacent to the candidate point (so the empty neighbor is distinct from
lib2), the friendly scan terminates immediately with verdict "not bad"
(false): the move keeps a local liberty besides lib2. -/
theorem C4_local_liberty_not_bad (b : Board) (color : Stone) (t : Nat)
    (s : SelfatariState) (g : Nat) (rest : List Nat)
    (hn : s.needs_more_lib = 0)
    (hl : b.libs g = 2)
    (he : (s.groupids Stone.S_NONE).length = 1)
    (ha : b.coord_is_adjecent (board_group_other_lib b g t) t = false) :
    examine_friendly_groups_go b color t s (g :: rest) = (some false, s) := by
  simp [examine_friendly_groups_go, hl, hn, he, ha]

/-- C4, witness for the amended theorem at the collector state of B4. -/
theorem C4_local_liberty_not_bad_witness :
    ((collect B4 35).needs_more_lib = 0 ∧ B4.libs 34 = 2
      ∧ (((collect B4 35).groupids Stone.S_NONE).length = 1)
      ∧ B4.coord_is_adjecent (board_group_other_lib B4 34 35) 35 = false)
    ∧ examine_friendly_groups_go B4 Stone.S_BLACK 35 (collect B4 35) [34]
        = (some false, collect B4 35) := by
  refine ⟨by decide, ?_⟩
  exact C4_local_liberty_not_bad B4 Stone.S_BLACK 35 (collect B4 35) 34 []
    (by decide) (by decide) (by decide) (by decide)

/-- C5, counterexample.  On B5 the friendly group 18 with exactly 3
liberties (the candidate 19 among them) is delegated to the
three-liberty checker; one of the two remaining liberties — 17, in
array position 0 — is a one-point eye for Black, yet the verdict is
"bad" (true): the eye in position 0 does not produce "not bad". -/
theorem C5_eye_position_counterexample :
    (collect B5 19).groupids Stone.S_BLACK = [18]
    ∧ B5.libs 18 = 3
    ∧ other_libs_of B5 18 19 = [17, 49]
    ∧ B5.board_is_one_point_eye 17 Stone.S_BLACK = true
    ∧ is_bad_selfatari_slow B5 Stone.S_BLACK 19 = true := by
  decide

/-- C5, amended: when the first friendly group with more than 2
liberties reached by the scan (after any number of single-liberty
friendly groups) has exactly 3 liberties and the remaining liberty in
array position 1 is a one-point eye for the moving color, the classifier
returns "not bad" (false).  (An eye in array position 0 does not by
itself prevent a "bad" verdict.) -/
theorem C5_eye_second_position_not_bad (b : Board) (color : Stone) (t : Nat)
    (pre rest : List Nat) (g : Nat)
    (hbucket : (collect b t).groupids color = pre ++ g :: rest)
    (hpre : ∀ h ∈ pre, b.libs h = 1)
    (hl : b.libs g = 3)
    (heye : b.board_is_one_point_eye ((other_libs_of b g t).getD 1 0) color = true) :
    is_bad_selfatari_slow b color t = false := by
  have htls : ∀ s : SelfatariState, three_liberty_suicide b g color t s = false := by
    intro s
    have hstep : tls_step b g color ((other_libs_of b g t).getD 0 0)
        ((other_libs_of b g t).getD 1 0)
        (b.coord_is_adjecent ((other_libs_of b g t).getD 0 0) t)
        (b.coord_is_adjecent ((other_libs_of b g t).getD 0 0)
          ((other_libs_of b g t).getD 1 0)) = some false := by
      simp only [tls_step]
      rw [if_pos heye]
    simp only [three_liberty_suicide, hstep, ite_self]
  apply is_bad_of_efg_fst b color t false
  unfold examine_friendly_groups
  rw [hbucket]
  obtain ⟨s', hs'⟩ := efg_go_skip_atari b color t pre (g :: rest) hpre (collect b t)
  rw [hs']
  simp [examine_friendly_groups_go, hl, htls s']

/-- C5, witness for the amended theorem: B5b stores g's liberty array as
[49, 19, 17], so the eye 17 occupies array position 1, and the verdict
is "not bad". -/
theorem C5_eye_second_position_not_bad_witness :
    ((collect B5b 19).groupids Stone.S_BLACK = [] ++ 18 :: []
      ∧ B5b.libs 18 = 3
      ∧ B5b.board_is_one_point_eye ((other_libs_of B5b 18 19).getD 1 0)
          Stone.S_BLACK = true)
    ∧ is_bad_selfatari_slow B5b Stone.S_BLACK 19 = false := by
  refine ⟨by decide, ?_⟩
  exact C5_eye_second_position_not_bad B5b Stone.S_BLACK 19 [] [] 18
    (by decide) (by decide) (by decide) (by decide)

/-- C6, counterexample.  On B6 friendly neighboring groups exist, the
first 2-liberty enemy group 20 is disqualified by an
internality-violating neighbor of its other liberty — and the scan stops
at once (inconclusive), even though continuing with the next enemy group
35 would produce the verdict "not bad": the claim has it backwards. -/
theorem C6_nakade_skip_counterexample :
    (examine_friendly_groups B6 Stone.S_BLACK 19 (collect B6 19)).2 = s6
    ∧ (s6.groupids Stone.S_BLACK).length ≠ 0
    ∧ s6.groupids Stone.S_WHITE = [20, 35]
    ∧ B6.libs 20 = 2
    ∧ ((B6.neighbors (board_group_other_lib B6 20 19)).all
        (fun c => nakade_nb_ok B6 Stone.S_BLACK 19 20 c)) = false
    ∧ setup_nakade_or_snapback_go B6 Stone.S_BLACK 19 s6 [20, 35] = none
    ∧ setup_nakade_or_snapback_go B6 Stone.S_BLACK 19 s6 [35] = some false := by
  decide

/-- C6, amended: when a 2-liberty enemy group is disqualified in the
nakade/snapback scan (an internality-violating neighbor of its other
liberty, or the one-friendly-single-stone deferred case), the scan stops
at once with an inconclusive result if friendly neighboring groups
exist, and only continues with the next enemy group when there are
none. -/
theorem C6_nakade_skip_stops (b : Board) (color : Stone) (t : Nat)
    (s : SelfatariState) (g : Nat) (rest : List Nat)
    (hdisq :
      (b.libs g = 2
        ∧ ((b.neighbors (board_group_other_lib b g t)).all
            (fun c => nakade_nb_ok b color t g c)) = false)
      ∨ (b.libs g = 2
        ∧ ((b.neighbors (board_group_other_lib b g t)).all
            (fun c => nakade_nb_ok b color t g c)) = true
        ∧ (s.groupids color).length = 1
        ∧ b.group_is_onestone ((s.groupids color).getD 0 0) = true
        ∧ b.libs ((s.groupids color).getD 0 0) ≠ 1)) :
    setup_nakade_or_snapback_go b color t s (g :: rest)
      = (if (s.groupids color).length ≠ 0 then none
         else setup_nakade_or_snapback_go b color t s rest) := by
  rcases hdisq with ⟨hl, hall⟩ | ⟨hl, hall, hlen, hone, hlib⟩
  · have hne2 : ¬ b.libs g ≠ 2 := by simp [hl]
    simp only [setup_nakade_or_snapback_go]
    rw [if_neg hne2, if_pos hall]
  · have hne2 : ¬ b.libs g ≠ 2 := by simp [hl]
    simp only [setup_nakade_or_snapback_go]
    rw [if_neg hne2, if_neg (by simp [hall]), if_neg (by omega),
      if_pos ⟨hlen, hone⟩, if_neg hlib]

/-- C6, witness for the amended theorem at the concrete scan state of B6. -/
theorem C6_nakade_skip_stops_witness :
    (B6.libs 20 = 2
      ∧ ((B6.neighbors (board_group_other_lib B6 20 19)).all
          (fun c => nakade_nb_ok B6 Stone.S_BLACK 19 20 c)) = false)
    ∧ setup_nakade_or_snapback_go B6 Stone.S_BLACK 19 s6 [20, 35] = none := by
  refine ⟨⟨by decide, by decide⟩, ?_⟩
  have h := C6_nakade_skip_stops B6 Stone.S_BLACK 19 s6 20 [35]
    (Or.inl ⟨by decide, by decide⟩)
  exact h.trans (by decide)

/-- C7: when the first three analyses are inconclusive, the throw-in
applicability condition holds (fewer than 2 off-board neighbors,
enemy-plus-off-board neighbor count 3, false-eyelike for the opponent)
and exactly one friendly neighboring group g exists, the final verdict
is "bad" if g has exactly 1 liberty, "not bad" if g is a single stone,
and otherwise the analyzer is inconclusive and the orchestrator's
default "bad" applies. -/
theorem C7_throwin_verdicts (b : Board) (color : Stone) (t : Nat)
    (s1 : SelfatariState) (g : Nat)
    (hf : examine_friendly_groups b color t (collect b t) = (none, s1))
    (he : examine_enemy_groups b color t s1 = none)
    (hs : setup_nakade_or_snapback b color t s1 = none)
    (h1 : neighbor_count_at b t Stone.S_OFFBOARD < 2)
    (h2 : neighbor_count_at b t (stone_other color)
        + neighbor_count_at b t Stone.S_OFFBOARD = 3)
    (h3 : b.board_is_false_eyelike t (stone_other color) = true)
    (hg : s1.groupids color = [g]) :
    is_bad_selfatari_slow b color t
      = (if b.libs g = 1 then true
         else if b.group_is_onestone g = true then false else true) := by
  rw [is_bad_of_throwin b color t s1 hf he hs]
  unfold check_throwin
  rw [if_pos ⟨h1, h2, h3⟩, hg]
  by_cases hl : b.libs g = 1 <;> by_cases ho : b.group_is_onestone g = true <;>
    simp [hl, ho]

/-- C7, witness at the concrete throw-in board B7 (the one friendly
group 17 is in atari, so the verdict is "bad"). -/
theorem C7_throwin_verdicts_witness :
    (B7.libs 17 = 1 ∧ s7.groupids Stone.S_BLACK = [17]
      ∧ B7.board_is_false_eyelike 18 (stone_other Stone.S_BLACK) = true)
    ∧ is_bad_selfatari_slow B7 Stone.S_BLACK 18 = true := by
  refine ⟨⟨by decide, by decide, by decide⟩, ?_⟩
  have h := C7_throwin_verdicts B7 Stone.S_BLACK 18 s7 17
    (by decide) (by decide) (by decide) (by decide) (by decide) (by decide)
    (by decide)
  exact h.trans (by decide)

/-- C8, counterexample.  On B8 an eligible friendly 2-liberty group (20)
exists whose other liberty 21 is not a bad self-atari, yet the cousin
call (with random draw 0, which picks group 18 whose other liberty 17 is
bad) returns "no suggestion": the claim's unconditional promise fails. -/
theorem C8_cousin_counterexample :
    cousin_groups B8 Stone.S_BLACK 19 = [18, 20]
    ∧ B8.libs 20 = 2
    ∧ board_group_other_lib B8 20 19 = 21
    ∧ is_bad_selfatari B8 Stone.S_BLACK 21 = false
    ∧ selfatari_cousin B8 Stone.S_BLACK 19 0 = none := by
  decide

/-- C8, amended: selfatari_cousin returns "no suggestion" (pass) when no
friendly neighboring group of the coordinate has exactly 2 liberties;
otherwise one eligible group is chosen by the random draw, and its other
liberty is returned exactly when that liberty is not itself a bad
self-atari (a not-bad alternative offered by a different eligible group
may be missed). -/
theorem C8_cousin_random_pick (b : Board) (color : Stone) (coord r : Nat) :
    (cousin_groups b color coord = [] → selfatari_cousin b color coord r = none)
    ∧ (cousin_groups b color coord ≠ [] →
        is_bad_selfatari b color
          (board_group_other_lib b
            ((cousin_groups b color coord).getD
              (r % (cousin_groups b color coord).length) 0) coord) = false →
        selfatari_cousin b color coord r
          = some (board_group_other_lib b
              ((cousin_groups b color coord).getD
                (r % (cousin_groups b color coord).length) 0) coord)) := by
  constructor
  · intro h
    simp [selfatari_cousin, h]
  · intro h hb
    have hlen : ¬ (cousin_groups b color coord).length = 0 :=
      fun hh => h (List.length_eq_zero.mp hh)
    simp only [selfatari_cousin]
    rw [if_neg hlen, if_neg (by rw [hb]; simp)]

/-- C8, witness for the amended theorem: on B8 with random draw 1 the
chosen group is 20 and its not-bad other liberty 21 is returned. -/
theorem C8_cousin_random_pick_witness :
    cousin_groups B8 Stone.S_BLACK 19 ≠ []
    ∧ is_bad_selfatari B8 Stone.S_BLACK 21 = false
    ∧ selfatari_cousin B8 Stone.S_BLACK 19 1 = some 21 := by
  refine ⟨by decide, by decide, ?_⟩
  have h := (C8_cousin_random_pick B8 Stone.S_BLACK 19 1).2 (by decide) (by decide)
  exact h.trans (by decide)

/-- board_perm_eq boards agree on neighbor color counts. -/
theorem bpe_nbc (b' b : Board) (h : board_perm_eq b' b) (c : Nat) (col : Stone) :
    neighbor_count_at b' c col = neighbor_count_at b c col := by
  obtain ⟨hat, -, -, -, -, -, -, -, hp⟩ := h
  unfold neighbor_count_at
  rw [hat]
  exact perm_filter_length _ (hp c)

/-- board_perm_eq boards agree on `any` scans over neighbors. -/
theorem bpe_any (b' b : Board) (h : board_perm_eq b' b) (x : Nat) (f : Nat → Bool) :
    (b'.neighbors x).any f = (b.neighbors x).any f := by
  obtain ⟨-, -, -, -, -, -, -, -, hp⟩ := h
  exact perm_any f (hp x)

/-- board_perm_eq boards agree on `all` scans over neighbors. -/
theorem bpe_all (b' b : Board) (h : board_perm_eq b' b) (x : Nat) (f : Nat → Bool) :
    (b'.neighbors x).all f = (b.neighbors x).all f := by
  obtain ⟨-, -, -, -, -, -, -, -, hp⟩ := h
  exact perm_all f (hp x)

/-- board_perm_eq boards agree on a three-liberty-checker loop step. -/
theorem bpe_tls_step (b' b : Board) (h : board_perm_eq b' b) (g : Nat)
    (color : Stone) (li lother : Nat) (adj_i onb : Bool) :
    tls_step b' g color li lother adj_i onb
      = tls_step b g color li lother adj_i onb := by
  have hnc := bpe_nbc b' b h
  have hany := bpe_any b' b h
  obtain ⟨hat, hgr, hlibs, -, -, heye, -, -, -⟩ := h
  simp only [tls_step, immediate_liberty_count, heye, hat, hgr, hlibs, hnc, hany]

/-- board_perm_eq boards agree on three_liberty_suicide. -/
theorem bpe_tls (b' b : Board) (h : board_perm_eq b' b) (g : Nat) (color : Stone)
    (t : Nat) (s : SelfatariState) :
    three_liberty_suicide b' g color t s = three_liberty_suicide b g color t s := by
  have hnc := bpe_nbc b' b h
  have hstep := bpe_tls_step b' b h
  obtain ⟨hat, hgr, hlibs, hlib, hadj, heye, hfeye, hone, hp⟩ := h
  simp only [three_liberty_suicide, other_libs_of, immediate_liberty_count,
    hat, hgr, hlibs, hlib, hadj, heye, hone, hnc, hstep]

/-- board_perm_eq boards agree on the friendly-group scan. -/
theorem bpe_efg_go (b' b : Board) (h : board_perm_eq b' b) (color : Stone)
    (t : Nat) :
    ∀ (l : List Nat) (s : SelfatariState),
      examine_friendly_groups_go b' color t s l
        = examine_friendly_groups_go b color t s l := by
  intro l
  induction l with
  | nil => intro s; rfl
  | cons g rest ih =>
    intro s
    have htls := bpe_tls b' b h g color t s
    obtain ⟨hat, hgr, hlibs, hlib, hadj, heye, hfeye, hone, hp⟩ := h
    simp only [examine_friendly_groups_go, board_group_other_lib,
      hlibs, hlib, hadj, htls, ih]

/-- board_perm_eq boards agree on the enemy-group scan. -/
theorem bpe_eeg_go (b' b : Board) (h : board_perm_eq b' b) (color : Stone)
    (s : SelfatariState) :
    ∀ (l : List Nat) (cc : Nat),
      examine_enemy_groups_go b' color s l cc
        = examine_enemy_groups_go b color s l cc := by
  intro l
  induction l with
  | nil => intro cc; rfl
  | cons g rest ih =>
    intro cc
    have hnc := bpe_nbc b' b h
    obtain ⟨hat, hgr, hlibs, hlib, hadj, heye, hfeye, hone, hp⟩ := h
    simp only [examine_enemy_groups_go, hlibs, hone, hnc, ih]

/-- board_perm_eq boards agree on the nakade/snapback scan. -/
theorem bpe_snos_go (b' b : Board) (h : board_perm_eq b' b) (color : Stone)
    (t : Nat) (s : SelfatariState) :
    ∀ l : List Nat,
      setup_nakade_or_snapback_go b' color t s l
        = setup_nakade_or_snapback_go b color t s l := by
  intro l
  induction l with
  | nil => rfl
  | cons g rest ih =>
    have hall := bpe_all b' b h
    obtain ⟨hat, hgr, hlibs, hlib, hadj, heye, hfeye, hone, hp⟩ := h
    simp only [setup_nakade_or_snapback_go, board_group_other_lib, nakade_nb_ok,
      hat, hgr, hlibs, hlib, hone, hall, ih]

/-- board_perm_eq boards agree on the throw-in analyzer. -/
theorem bpe_throwin (b' b : Board) (h : board_perm_eq b' b) (color : Stone)
    (t : Nat) (s : SelfatariState) :
    check_throwin b' color t s = check_throwin b color t s := by
  have hnc := bpe_nbc b' b h
  have hany := bpe_any b' b h
  obtain ⟨hat, hgr, hlibs, hlib, hadj, heye, hfeye, hone, hp⟩ := h
  simp only [check_throwin, hat, hlibs, hfeye, hone, hnc, hany]

/-- C9, counterexample.  B6r presents the identical board queries as B6
and only permutes the neighbor-enumeration order at the candidate point
19 (the two adjacent white groups are visited in the opposite order) —
yet the verdict flips from "bad" (true) to "not bad" (false): the
verdict is NOT invariant under permuting the neighbor visitation order. -/
theorem C9_order_dependence_counterexample :
    B6r.board_at = B6.board_at
    ∧ B6r.group_at = B6.group_at
    ∧ B6r.libs = B6.libs
    ∧ B6r.lib = B6.lib
    ∧ B6r.coord_is_adjecent = B6.coord_is_adjecent
    ∧ B6r.board_is_one_point_eye = B6.board_is_one_point_eye
    ∧ B6r.board_is_false_eyelike = B6.board_is_false_eyelike
    ∧ B6r.group_is_onestone = B6.group_is_onestone
    ∧ (B6r.neighbors 19).Perm (B6.neighbors 19)
    ∧ is_bad_selfatari_slow B6 Stone.S_BLACK 19 = true
    ∧ is_bad_selfatari_slow B6r Stone.S_BLACK 19 = false :=
  ⟨rfl, rfl, rfl, rfl, rfl, rfl, rfl, rfl, by decide, by decide, by decide⟩

/-- C9, amended: the verdict is a deterministic function of the board
queries, and any permutation of the internal neighbor-enumeration order
that leaves the collector's bucket lists unchanged yields the identical
verdict.  (A permutation that reorders a bucket can change the verdict,
as the counterexample shows.) -/
theorem C9_collector_preserving_perm_invariance (b' b : Board) (color : Stone)
    (t : Nat) (h : board_perm_eq b' b) (hc : collect b' t = collect b t) :
    is_bad_selfatari_slow b' color t = is_bad_selfatari_slow b color t := by
  simp only [is_bad_selfatari_slow, examine_friendly_groups,
    examine_enemy_groups, setup_nakade_or_snapback, hc,
    bpe_efg_go b' b h color t, bpe_eeg_go b' b h color,
    bpe_snos_go b' b h color t, bpe_throwin b' b h color t]

/-- C9, witness for the amended theorem: B6w permutes the enumeration
order at 19 while keeping every collector bucket identical, and the
verdict is unchanged. -/
theorem C9_perm_invariance_witness :
    collect B6w 19 = collect B6 19
    ∧ is_bad_selfatari_slow B6w Stone.S_BLACK 19
        = is_bad_selfatari_slow B6 Stone.S_BLACK 19 := by
  refine ⟨by decide, ?_⟩
  refine C9_collector_preserving_perm_invariance B6w B6 Stone.S_BLACK 19 ?_ (by decide)
  refine ⟨rfl, rfl, rfl, rfl, rfl, rfl, rfl, rfl, ?_⟩
  intro c
  by_cases hcc : c = 19
  · subst hcc
    decide
  · have hb : (c == 19) = false := by simp [hcc]
    show (if c == 19 then [18, 3, 20, 35] else B6.neighbors c).Perm (B6.neighbors c)
    rw [hb]
    simp

/-- C10: whenever control passes the initial liberty-gain guard of the
three-liberty checker, the two non-candidate liberties cannot both be
adjacent to the candidate point — two distinct empty liberties adjacent
to the candidate would have made the immediate liberty count at least 2
and triggered the early "not bad" return, so the assertion after the
guard cannot fail.  (The coherence hypotheses say that the two extracted
liberties are distinct empty points and that adjacency implies being an
enumerated neighbor.) -/
theorem C10_assert_unreachable (b : Board) (g : Nat) (t l0 l1 : Nat)
    (hol : other_libs_of b g t = [l0, l1])
    (hne : l0 ≠ l1)
    (he0 : b.board_at l0 = Stone.S_NONE) (he1 : b.board_at l1 = Stone.S_NONE)
    (hmem : ∀ c : Nat, b.coord_is_adjecent c t = true → c ∈ b.neighbors t)
    (hguard : ¬ (immediate_liberty_count b t
        - (if (b.coord_is_adjecent ((other_libs_of b g t).getD 0 0) t
              || b.coord_is_adjecent ((other_libs_of b g t).getD 1 0) t) = true
           then 1 else 0) > 0)) :
    ¬ (b.coord_is_adjecent l0 t = true ∧ b.coord_is_adjecent l1 t = true) := by
  rintro ⟨ha0, ha1⟩
  have h2 : 2 ≤ immediate_liberty_count b t := by
    unfold immediate_liberty_count neighbor_count_at
    refine two_mem_le_length hne ?_ ?_
    · exact List.mem_filter.mpr ⟨hmem l0 ha0, by simp [he0]⟩
    · exact List.mem_filter.mpr ⟨hmem l1 ha1, by simp [he1]⟩
  rw [hol] at hguard
  simp [ha0] at hguard
  omega

/-- C10, witness at the three-liberty board B5 (the guard fails there
and indeed the two other liberties 17 and 49 are not both adjacent
to the candidate 19). -/
theorem C10_assert_unreachable_witness :
    other_libs_of B5 18 19 = [17, 49]
    ∧ ¬ (B5.coord_is_adjecent 17 19 = true ∧ B5.coord_is_adjecent 49 19 = true) := by
  refine ⟨by decide, ?_⟩
  exact C10_assert_unreachable B5 18 19 17 49 (by decide) (by decide) (by decide)
    (by decide) (mkBoard_adj_mem _ _ _ _ _ _ _ 19) (by decide)
